import Mathlib

/-!
Verification of the presentation-coach real-time frame analysis pipeline.

The development shallowly embeds the backend of the repository:
`speech_coach_processor.py` (the frame classifier and the analysis engine
with its deadline fallback) and `websocket_server.py` (frame intake and the
result broadcaster).  Pixel coordinates, confidences and thresholds are
modelled as rationals; machine floats in the source are treated as exact
reals, which is the reading the specification takes.  Fallible paths
(timeouts, estimator failures, malformed payloads, failing subscribers)
are modelled as explicit outcome values, so every function here is total
and executable.
-/

namespace SpeechCoach

/-- Letter grade for one feedback dimension, best to worst. -/
inductive Grade
  | A
  | B
  | C
deriving DecidableEq, Repr

/-- One body-landmark estimate: x and y pixel coordinates plus a confidence
score.  In the source a keypoint is the row `[x, y, conf]` of the numpy
array returned by the pose model. -/
structure Keypoint where
  x : ℚ
  y : ℚ
  conf : ℚ
deriving DecidableEq, Repr

/-- Guarded keypoint lookup.  Embeds the pattern
`keypoints[i] if len(keypoints) > i and keypoints[i][2] > self.conf_threshold else None`
used by all three pose analyzers: the keypoint is available exactly when
index `i` is in range and its confidence strictly exceeds the threshold. -/
def keypointAt (kps : List Keypoint) (i : ℕ) (thr : ℚ) : Option Keypoint :=
  match kps[i]? with
  | some k => if thr < k.conf then some k else none
  | none => none

/-- Proposition: the required keypoint at index `i` is absent from the
observation or its confidence does not exceed the threshold.  This is the
exact complement of `keypointAt` returning `some`. -/
def missingOrLowConf (kps : List Keypoint) (i : ℕ) (thr : ℚ) : Prop :=
  ∀ k, kps[i]? = some k → k.conf ≤ thr

/-- Embeds `_analyze_eye_contact` (speech_coach_processor.py lines 192-223).
Requires nose (index 0), left eye (1) and right eye (2).  The
`width = 0` guard embeds the numpy behaviour of the source at a degenerate
frame: dividing by a zero half-width yields inf or nan, every threshold
comparison is then false, and the function answers C; for `0 < width` the
arithmetic is exact.  The tilt guard `0 < eye_distance` is the literal
`if eye_distance > 0 else 0` divide-by-zero guard of the source. -/
def analyze_eye_contact (kps : List Keypoint) (width : ℕ) (thr : ℚ) : Grade :=
  match keypointAt kps 0 thr, keypointAt kps 1 thr, keypointAt kps 2 thr with
  | some _, some left_eye, some right_eye =>
      if width = 0 then Grade.C
      else
        let face_center_x : ℚ := (left_eye.x + right_eye.x) / 2
        let screen_center_x : ℚ := (width : ℚ) / 2
        let horizontal_offset : ℚ := |face_center_x - screen_center_x| / screen_center_x
        let eye_distance : ℚ := |left_eye.x - right_eye.x|
        let vertical_diff : ℚ := |left_eye.y - right_eye.y|
        let tiltQ : ℚ := if 0 < eye_distance then vertical_diff / eye_distance else 0
        if horizontal_offset < 1/10 ∧ tiltQ < 1/10 then Grade.A
        else if horizontal_offset < 2/10 ∧ tiltQ < 2/10 then Grade.B
        else Grade.C
  | _, _, _ => Grade.C

/-- Embeds `_analyze_framing` (speech_coach_processor.py lines 225-262).
Requires nose (index 0), left shoulder (5) and right shoulder (6).  The
`width = 0 ∨ height = 0` guard embeds the numpy inf/nan behaviour of the
source on degenerate frames, where every strict threshold comparison is
false and the answer is C. -/
def analyze_framing (kps : List Keypoint) (width height : ℕ) (thr : ℚ) : Grade :=
  match keypointAt kps 0 thr, keypointAt kps 5 thr, keypointAt kps 6 thr with
  | some nose, some left_shoulder, some right_shoulder =>
      if width = 0 ∨ height = 0 then Grade.C
      else
        let person_center_x : ℚ := (left_shoulder.x + right_shoulder.x) / 2
        let screen_center_x : ℚ := (width : ℚ) / 2
        let horizontal_offset : ℚ := |person_center_x - screen_center_x| / screen_center_x
        let shoulder_width : ℚ := |left_shoulder.x - right_shoulder.x|
        let frameQ : ℚ := shoulder_width / (width : ℚ)
        let headYQ : ℚ := nose.y / (height : ℚ)
        if horizontal_offset < 15/100 ∧ (1/10 < frameQ ∧ frameQ < 4/10) ∧
            (1/10 < headYQ ∧ headYQ < 4/10) then Grade.A
        else if horizontal_offset < 25/100 ∧ (5/100 < frameQ ∧ frameQ < 5/10) ∧
            (5/100 < headYQ ∧ headYQ < 5/10) then Grade.B
        else Grade.C
  | _, _, _ => Grade.C

/-- Embeds `_analyze_posture` (speech_coach_processor.py lines 264-297).
Requires left shoulder (index 5), right shoulder (6), left hip (11) and
right hip (12).  Both ratios carry the literal
`if shoulder_distance > 0 else 0` divide-by-zero guard of the source. -/
def analyze_posture (kps : List Keypoint) (thr : ℚ) : Grade :=
  match keypointAt kps 5 thr, keypointAt kps 6 thr,
      keypointAt kps 11 thr, keypointAt kps 12 thr with
  | some left_shoulder, some right_shoulder, some left_hip, some right_hip =>
      let shoulder_y_diff : ℚ := |left_shoulder.y - right_shoulder.y|
      let shoulder_distance : ℚ := |left_shoulder.x - right_shoulder.x|
      let shoulder_tilt : ℚ :=
        if 0 < shoulder_distance then shoulder_y_diff / shoulder_distance else 0
      let shoulder_center_y : ℚ := (left_shoulder.y + right_shoulder.y) / 2
      let hip_center_y : ℚ := (left_hip.y + right_hip.y) / 2
      let spine_angle : ℚ :=
        if 0 < shoulder_distance
        then |shoulder_center_y - hip_center_y| / shoulder_distance else 0
      if shoulder_tilt < 5/100 ∧ spine_angle < 1/10 then Grade.A
      else if shoulder_tilt < 1/10 ∧ spine_angle < 2/10 then Grade.B
      else Grade.C
  | _, _, _, _ => Grade.C

/-- Mean intensity of the grayscale frame, `np.mean(gray)` in the source. -/
def brightnessQ (px : List ℕ) : ℚ :=
  (px.map (fun v => (v : ℚ))).sum / (px.length : ℚ)

/-- Population variance of the intensities.  The source computes the
standard deviation `contrast = np.std(gray)`; since the square root is not
rational we work with its square, `varianceQ = contrast ^ 2`, and every
source comparison `contrast > c` is encoded as the equivalent
`varianceQ > c ^ 2` (both sides are nonnegative). -/
def varianceQ (px : List ℕ) : ℚ :=
  (px.map (fun v => ((v : ℚ) - brightnessQ px) ^ 2)).sum / (px.length : ℚ)

/-- Fraction of the normalized 256-bin intensity histogram in bins
200 through 255: `np.sum(hist_normalized[200:])` in the source.  A uint8
pixel of value v lands in bin v, so this is the fraction of pixels with
intensity at least 200. -/
def overexposedQ (px : List ℕ) : ℚ :=
  ((px.filter (fun v => 200 ≤ v)).length : ℚ) / (px.length : ℚ)

/-- Fraction of the normalized histogram in bins 0 through 49:
`np.sum(hist_normalized[:50])`, the fraction of pixels with intensity
strictly below 50. -/
def underexposedQ (px : List ℕ) : ℚ :=
  ((px.filter (fun v => v < 50)).length : ℚ) / (px.length : ℚ)

/-- Embeds `_analyze_lighting` (speech_coach_processor.py lines 299-337).
The input is the list of grayscale intensities (0-255) of the frame; the
grade uses no keypoint data.  The empty-frame guard embeds the source
behaviour where `cv2.cvtColor` raises on an empty array and the
surrounding `except` returns C.  Comparisons on the standard deviation
are encoded on its square, see `varianceQ`. -/
def analyze_lighting (px : List ℕ) : Grade :=
  if px = [] then Grade.C
  else
    let brightness := brightnessQ px
    let varQ := varianceQ px
    let over := overexposedQ px
    let under := underexposedQ px
    if (100 < brightness ∧ brightness < 180) ∧ 30 ^ 2 < varQ ∧
        over < 1/10 ∧ under < 1/10 then Grade.A
    else if (80 < brightness ∧ brightness < 200) ∧ 20 ^ 2 < varQ ∧
        over < 2/10 ∧ under < 2/10 then Grade.B
    else Grade.C

/-- Embeds `_generate_explanation` (speech_coach_processor.py lines
339-371): one canned sentence per dimension chosen by its grade, joined
with single spaces in the fixed order eye contact, framing, posture,
lighting. -/
def generate_explanation (eye_contact framing posture lighting : Grade) : String :=
  let explanations : List String :=
    [ if eye_contact = Grade.A then
        "Great eye contact! You\x27re looking directly at the camera."
      else if eye_contact = Grade.B then
        "Good eye contact. Try to look more directly at the camera."
      else
        "Focus on looking directly at the camera for better engagement.",
      if framing = Grade.A then
        "Perfect framing! You\x27re well positioned in the frame."
      else if framing = Grade.B then
        "Good framing. Consider adjusting your position slightly."
      else
        "Try to center yourself better in the frame.",
      if posture = Grade.A then
        "Excellent posture! Keep your shoulders back and head up."
      else if posture = Grade.B then
        "Good posture. Try to sit up a bit straighter."
      else
        "Focus on maintaining better posture - shoulders back, head up.",
      if lighting = Grade.A then
        "Perfect lighting! The camera is picking up your face clearly."
      else if lighting = Grade.B then
        "Good lighting. Consider adjusting your lighting slightly."
      else
        "Try to improve your lighting - ensure your face is well lit." ]
  String.intercalate " " explanations

/-- Sentence selected for the eye-contact dimension, one per grade tier. -/
def eyeContactSentence : Grade → String
  | Grade.A => "Great eye contact! You\x27re looking directly at the camera."
  | Grade.B => "Good eye contact. Try to look more directly at the camera."
  | Grade.C => "Focus on looking directly at the camera for better engagement."

/-- Sentence selected for the framing dimension, one per grade tier. -/
def framingSentence : Grade → String
  | Grade.A => "Perfect framing! You\x27re well positioned in the frame."
  | Grade.B => "Good framing. Consider adjusting your position slightly."
  | Grade.C => "Try to center yourself better in the frame."

/-- Sentence selected for the posture dimension, one per grade tier. -/
def postureSentence : Grade → String
  | Grade.A => "Excellent posture! Keep your shoulders back and head up."
  | Grade.B => "Good posture. Try to sit up a bit straighter."
  | Grade.C => "Focus on maintaining better posture - shoulders back, head up."

/-- Sentence selected for the lighting dimension, one per grade tier. -/
def lightingSentence : Grade → String
  | Grade.A => "Perfect lighting! The camera is picking up your face clearly."
  | Grade.B => "Good lighting. Consider adjusting your lighting slightly."
  | Grade.C => "Try to improve your lighting - ensure your face is well lit."

/-- The immutable result of one analysis cycle: four grades plus the
explanation string, the dict built by `_analyze_frame_sync`. -/
structure AnalysisResult where
  eye_contact : Grade
  framing : Grade
  posture : Grade
  lighting : Grade
  explanation : String
deriving DecidableEq, Repr

/-- The seed result stored by `SpeechCoachProcessor.__init__`. -/
def initialAnalysis : AnalysisResult :=
  { eye_contact := Grade.B
    framing := Grade.B
    posture := Grade.B
    lighting := Grade.B
    explanation := "Starting analysis..." }

/-- Mutable state of the analysis engine: the stored last analysis
(`self._last_analysis`), the `self._shutdown` flag consulted at the top of
`_analyze_frame_sync`, and whether the thread pool has been shut down (set
by `close`, after which `run_in_executor` rejects new submissions). -/
structure EngineState where
  last_analysis : AnalysisResult
  shutdownFlag : Bool
  executorShut : Bool
deriving DecidableEq, Repr

/-- Engine state right after construction. -/
def initialEngine : EngineState :=
  { last_analysis := initialAnalysis, shutdownFlag := false, executorShut := false }

/-- Embeds `get_latest_analysis` / the current() accessor: the stored
result, returned by value (the source returns a dict copy, equal by
value). -/
def get_latest_analysis (st : EngineState) : AnalysisResult :=
  st.last_analysis

/-- Embeds `close` (speech_coach_processor.py lines 377-381): sets the
shutdown flag and shuts the executor down without waiting. -/
def close (st : EngineState) : EngineState :=
  { st with shutdownFlag := true, executorShut := true }

/-- Outcome of the synchronous analysis body once it runs on a worker:
either some exception escapes into the handler of `_analyze_frame_sync`
(estimator call or classification raising), or the estimator reports no
pose, or a pose is observed with the frame dimensions and grayscale
pixels. -/
inductive SyncOutcome
  | raisesInBody
  | noObservation
  | observed (kps : List Keypoint) (width height : ℕ) (px : List ℕ)

/-- Outcome of one `_analyze_frame_async` invocation: the 5-second
`asyncio.wait_for` deadline expires, or the worker completes with a
synchronous outcome. -/
inductive AsyncOutcome
  | timeout
  | completes (out : SyncOutcome)

/-- Deadline of `asyncio.wait_for` in `_analyze_frame_async`, in
seconds. -/
def analysisDeadlineSeconds : ℚ := 5

/-- Outcomes on which the engine must fall back to the stored result:
deadline expiry, an exception in estimation or classification, or the
estimator returning no observation. -/
def isFallbackOutcome : AsyncOutcome → Bool
  | AsyncOutcome.timeout => true
  | AsyncOutcome.completes SyncOutcome.raisesInBody => true
  | AsyncOutcome.completes SyncOutcome.noObservation => true
  | AsyncOutcome.completes (SyncOutcome.observed _ _ _ _) => false

/-- The fresh analysis built from an observed pose, as assembled by the
success path of `_analyze_frame_sync`. -/
def classifyFrame (thr : ℚ) (kps : List Keypoint) (width height : ℕ)
    (px : List ℕ) : AnalysisResult :=
  let e := analyze_eye_contact kps width thr
  let f := analyze_framing kps width height thr
  let p := analyze_posture kps thr
  let l := analyze_lighting px
  { eye_contact := e, framing := f, posture := p, lighting := l
    explanation := generate_explanation e f p l }

/-- Embeds `_analyze_frame_sync` (speech_coach_processor.py lines
142-190): after the shutdown check, an exception or a missing observation
returns the stored result unchanged; a detected pose is classified. -/
def analyze_frame_sync (st : EngineState) (thr : ℚ) (out : SyncOutcome) :
    AnalysisResult :=
  if st.shutdownFlag then st.last_analysis
  else
    match out with
    | SyncOutcome.raisesInBody => st.last_analysis
    | SyncOutcome.noObservation => st.last_analysis
    | SyncOutcome.observed kps width height px => classifyFrame thr kps width height px

/-- Embeds `_analyze_frame_async` (speech_coach_processor.py lines
123-140).  The second component records whether estimation work was
dispatched to the worker pool.  Once the executor has been shut down,
`loop.run_in_executor` raises before any work is enqueued and the
`except` clause returns the stored result; otherwise the work is
dispatched and either the deadline expires (stored result returned) or
the synchronous result comes back. -/
def analyze_frame_async (st : EngineState) (thr : ℚ) (out : AsyncOutcome) :
    AnalysisResult × Bool :=
  if st.executorShut then (st.last_analysis, false)
  else
    match out with
    | AsyncOutcome.timeout => (st.last_analysis, true)
    | AsyncOutcome.completes o => (analyze_frame_sync st thr o, true)

/-- Embeds `_analyze_frame` (speech_coach_processor.py lines 109-121): the
per-frame callback stores whatever `_analyze_frame_async` returned as the
new last analysis. -/
def analyze_frame (st : EngineState) (thr : ℚ) (out : AsyncOutcome) : EngineState :=
  { st with last_analysis := (analyze_frame_async st thr out).1 }

/-- Outbound wire message built by `broadcast_analysis` in
websocket_server.py: a type discriminator and the analysis payload. -/
structure OutboundMessage where
  mtype : String
  data : AnalysisResult
deriving DecidableEq, Repr

/-- Embeds `broadcast_analysis` (websocket_server.py lines 111-134).
`clients` is the live subscriber set and `sendFails` records, for this
publish, which subscribers raise on `send`.  Returns the message that was
sent (none when the client set is empty and the function returns early),
the set of subscribers whose delivery succeeded, and the live set after
the failed subscribers have been unregistered.  Every per-client failure
is caught inside the loop, so delivery is attempted for every client and
nothing propagates to the caller. -/
def broadcast_analysis {α : Type} [DecidableEq α] (analysis : AnalysisResult)
    (clients : Finset α) (sendFails : α → Bool) :
    Option OutboundMessage × Finset α × Finset α :=
  if clients = ∅ then (none, ∅, clients)
  else
    let disconnected := clients.filter (fun c => sendFails c = true)
    (some { mtype := "analysis", data := analysis },
      clients.filter (fun c => sendFails c = false),
      clients \ disconnected)

/-- Outcome of decoding one inbound frame payload in `process_frame`:
`badBase64` when `base64.b64decode` raises, `badImage` when the decoded
bytes are not a decodable image (or any later step raises, with the
exception text), `decoded` when a frame array is obtained and handed to
the engine. -/
inductive DecodeOutcome
  | badBase64
  | badImage (msg : String)
  | decoded (out : AsyncOutcome)

/-- Error result built by the `base64.binascii.Error` handler of
`process_frame`. -/
def errorAnalysisBase64 : AnalysisResult :=
  { eye_contact := Grade.C, framing := Grade.C, posture := Grade.C
    lighting := Grade.C
    explanation := "Error processing frame - invalid image data" }

/-- Error result built by the generic exception handler of
`process_frame`. -/
def errorAnalysisImage (msg : String) : AnalysisResult :=
  { eye_contact := Grade.C, framing := Grade.C, posture := Grade.C
    lighting := Grade.C
    explanation := "Error processing frame: " ++ msg }

/-- Embeds `process_frame` (websocket_server.py lines 71-109): a decoded
frame is analyzed by the engine and the result broadcast; a malformed
payload yields an all-C error result broadcast through the very same
`broadcast_analysis` path.  Every branch broadcasts and none raises. -/
def process_frame {α : Type} [DecidableEq α] (st : EngineState) (thr : ℚ)
    (dec : DecodeOutcome) (clients : Finset α) (sendFails : α → Bool) :
    AnalysisResult × (Option OutboundMessage × Finset α × Finset α) :=
  match dec with
  | DecodeOutcome.badBase64 =>
      (errorAnalysisBase64, broadcast_analysis errorAnalysisBase64 clients sendFails)
  | DecodeOutcome.badImage msg =>
      (errorAnalysisImage msg, broadcast_analysis (errorAnalysisImage msg) clients sendFails)
  | DecodeOutcome.decoded out =>
      let r := (analyze_frame_async st thr out).1
      (r, broadcast_analysis r clients sendFails)

/-- Spec formula for eye contact: horizontal offset of the eye midpoint
from the frame center, normalized by the half-width. -/
def eyeOffset (left_eye right_eye : Keypoint) (width : ℕ) : ℚ :=
  |(left_eye.x + right_eye.x) / 2 - (width : ℚ) / 2| / ((width : ℚ) / 2)

/-- Spec formula for eye contact: vertical difference of the eyes over
their horizontal distance, 0 when the eyes share the same x-coordinate. -/
def eyeTilt (left_eye right_eye : Keypoint) : ℚ :=
  if left_eye.x = right_eye.x then 0
  else |left_eye.y - right_eye.y| / |left_eye.x - right_eye.x|

/-- Spec formula for framing: horizontal offset of the shoulder midpoint
from the frame center, normalized by the half-width. -/
def shoulderOffset (left_shoulder right_shoulder : Keypoint) (width : ℕ) : ℚ :=
  |(left_shoulder.x + right_shoulder.x) / 2 - (width : ℚ) / 2| / ((width : ℚ) / 2)

/-- Spec formula for framing: shoulder width over frame width (the spec
calls this frame_ratio). -/
def frameFrac (left_shoulder right_shoulder : Keypoint) (width : ℕ) : ℚ :=
  |left_shoulder.x - right_shoulder.x| / (width : ℚ)

/-- Spec formula for framing: nose height over frame height (the spec
calls this head_y_ratio). -/
def headYFrac (nose : Keypoint) (height : ℕ) : ℚ :=
  nose.y / (height : ℚ)

lemma keypointAt_eq_none (kps : List Keypoint) (i : ℕ) (thr : ℚ)
    (h : missingOrLowConf kps i thr) : keypointAt kps i thr = none := by
  unfold keypointAt
  cases hk : kps[i]? with
  | none => simp
  | some k => simp [not_lt.mpr (h k hk)]

lemma grade_if_cases (P Q : Prop) [Decidable P] [Decidable Q] :
    ((if P then Grade.A else if Q then Grade.B else Grade.C) = Grade.A ↔ P) ∧
    ((if P then Grade.A else if Q then Grade.B else Grade.C) = Grade.B ↔ ¬P ∧ Q) ∧
    ((if P then Grade.A else if Q then Grade.B else Grade.C) = Grade.C ↔ ¬P ∧ ¬Q) := by
  by_cases hp : P <;> by_cases hq : Q <;> simp [hp, hq]

lemma tilt_guard (a b q : ℚ) :
    (if 0 < |a - b| then q else 0) = if a = b then 0 else q := by
  rcases eq_or_ne a b with h | h
  · simp [h]
  · rw [if_pos (abs_pos.mpr (sub_ne_zero.mpr h)), if_neg h]

lemma analyze_eye_contact_missing (kps : List Keypoint) (width : ℕ) (thr : ℚ)
    (h : keypointAt kps 0 thr = none ∨ keypointAt kps 1 thr = none ∨
      keypointAt kps 2 thr = none) :
    analyze_eye_contact kps width thr = Grade.C := by
  unfold analyze_eye_contact
  cases h0 : keypointAt kps 0 thr <;> cases h1 : keypointAt kps 1 thr <;>
    cases h2 : keypointAt kps 2 thr <;> simp_all

lemma analyze_framing_missing (kps : List Keypoint) (width height : ℕ) (thr : ℚ)
    (h : keypointAt kps 0 thr = none ∨ keypointAt kps 5 thr = none ∨
      keypointAt kps 6 thr = none) :
    analyze_framing kps width height thr = Grade.C := by
  unfold analyze_framing
  cases h0 : keypointAt kps 0 thr <;> cases h5 : keypointAt kps 5 thr <;>
    cases h6 : keypointAt kps 6 thr <;> simp_all

lemma analyze_posture_missing (kps : List Keypoint) (thr : ℚ)
    (h : keypointAt kps 5 thr = none ∨ keypointAt kps 6 thr = none ∨
      keypointAt kps 11 thr = none ∨ keypointAt kps 12 thr = none) :
    analyze_posture kps thr = Grade.C := by
  unfold analyze_posture
  cases h5 : keypointAt kps 5 thr <;> cases h6 : keypointAt kps 6 thr <;>
    cases h11 : keypointAt kps 11 thr <;> cases h12 : keypointAt kps 12 thr <;> simp_all

/-- Claim C1: for every frame analysis invocation in which estimation
exceeds the deadline, the estimator returns no observation, or
estimation/classification raises, the value returned by the async analysis
equals the previously stored AnalysisResult, and the stored result
observable via the current() accessor is unchanged by the invocation. -/
theorem analyze_fallback_preserves_current (st : EngineState) (thr : ℚ)
    (out : AsyncOutcome) (hfb : isFallbackOutcome out = true) :
    (analyze_frame_async st thr out).1 = get_latest_analysis st ∧
    get_latest_analysis (analyze_frame st thr out) = get_latest_analysis st := by
  have h1 : (analyze_frame_async st thr out).1 = get_latest_analysis st := by
    cases out with
    | timeout =>
        by_cases h : st.executorShut <;>
          simp [analyze_frame_async, h, get_latest_analysis]
    | completes o =>
        cases o with
        | raisesInBody =>
            by_cases h : st.executorShut <;> by_cases h2 : st.shutdownFlag <;>
              simp [analyze_frame_async, analyze_frame_sync, h, h2, get_latest_analysis]
        | noObservation =>
            by_cases h : st.executorShut <;> by_cases h2 : st.shutdownFlag <;>
              simp [analyze_frame_async, analyze_frame_sync, h, h2, get_latest_analysis]
        | observed kps w hh px => simp [isFallbackOutcome] at hfb
  exact ⟨h1, by simp [analyze_frame, get_latest_analysis] at h1 ⊢; rw [h1]⟩

/-- Witness for C1 at a concrete engine state and a timeout outcome. -/
theorem analyze_fallback_preserves_current_witness :
    (analyze_frame_async initialEngine (1/2) AsyncOutcome.timeout).1 =
        get_latest_analysis initialEngine ∧
    get_latest_analysis (analyze_frame initialEngine (1/2) AsyncOutcome.timeout) =
        get_latest_analysis initialEngine :=
  analyze_fallback_preserves_current initialEngine (1/2) AsyncOutcome.timeout rfl

/-- Claim C2: for every PoseObservation in which any required keypoint for
a dimension is absent or has confidence not exceeding the threshold (eye
contact: nose, left eye, right eye; framing: nose, both shoulders;
posture: both shoulders and both hips), that dimension grades C. -/
theorem missing_keypoint_grades_C (kps : List Keypoint) (width height : ℕ) (thr : ℚ) :
    ((missingOrLowConf kps 0 thr ∨ missingOrLowConf kps 1 thr ∨
        missingOrLowConf kps 2 thr) →
      analyze_eye_contact kps width thr = Grade.C) ∧
    ((missingOrLowConf kps 0 thr ∨ missingOrLowConf kps 5 thr ∨
        missingOrLowConf kps 6 thr) →
      analyze_framing kps width height thr = Grade.C) ∧
    ((missingOrLowConf kps 5 thr ∨ missingOrLowConf kps 6 thr ∨
        missingOrLowConf kps 11 thr ∨ missingOrLowConf kps 12 thr) →
      analyze_posture kps thr = Grade.C) := by
  refine ⟨fun h => ?_, fun h => ?_, fun h => ?_⟩
  · exact analyze_eye_contact_missing kps width thr
      (h.imp (keypointAt_eq_none kps 0 thr)
        (Or.imp (keypointAt_eq_none kps 1 thr) (keypointAt_eq_none kps 2 thr)))
  · exact analyze_framing_missing kps width height thr
      (h.imp (keypointAt_eq_none kps 0 thr)
        (Or.imp (keypointAt_eq_none kps 5 thr) (keypointAt_eq_none kps 6 thr)))
  · exact analyze_posture_missing kps thr
      (h.imp (keypointAt_eq_none kps 5 thr)
        (Or.imp (keypointAt_eq_none kps 6 thr)
          (Or.imp (keypointAt_eq_none kps 11 thr) (keypointAt_eq_none kps 12 thr))))

/-- Witness for C2 at the empty observation, where every keypoint is
absent. -/
theorem missing_keypoint_grades_C_witness :
    analyze_eye_contact [] 640 (1/2) = Grade.C ∧
    analyze_framing [] 640 480 (1/2) = Grade.C ∧
    analyze_posture [] (1/2) = Grade.C :=
  ⟨(missing_keypoint_grades_C [] 640 480 (1/2)).1
      (Or.inl (fun k hk => by simp at hk)),
    (missing_keypoint_grades_C [] 640 480 (1/2)).2.1
      (Or.inl (fun k hk => by simp at hk)),
    (missing_keypoint_grades_C [] 640 480 (1/2)).2.2
      (Or.inl (fun k hk => by simp at hk))⟩

/-- Claim C9: after shutdown, every analyze invocation returns the last
stored AnalysisResult immediately, no estimation work is dispatched to the
worker pool (the shut-down executor rejects new submissions), and the
stored result is untouched by shutdown itself. -/
theorem shutdown_analyze_no_dispatch (st : EngineState) (thr : ℚ)
    (out : AsyncOutcome) :
    analyze_frame_async (close st) thr out = (get_latest_analysis st, false) ∧
    get_latest_analysis (close st) = get_latest_analysis st := by
  constructor
  · simp [analyze_frame_async, close, get_latest_analysis]
  · simp [close, get_latest_analysis]

/-- Claim C10: with both shoulders and both hips present above the
threshold but the shoulders at identical x-coordinates, both ratios are
substituted by 0 by the divide-by-zero guards, and the posture grade is A
regardless of the hip positions. -/
theorem posture_zero_shoulder_distance_grade_A (kps : List Keypoint) (thr : ℚ)
    (ls rs lh rh : Keypoint)
    (h5 : keypointAt kps 5 thr = some ls) (h6 : keypointAt kps 6 thr = some rs)
    (h11 : keypointAt kps 11 thr = some lh) (h12 : keypointAt kps 12 thr = some rh)
    (hx : ls.x = rs.x) :
    analyze_posture kps thr = Grade.A := by
  unfold analyze_posture
  rw [h5, h6, h11, h12]
  have hd : |ls.x - rs.x| = 0 := by rw [hx, sub_self, abs_zero]
  simp [hd]

/-- Witness for C10: a concrete observation with vertically stacked
shoulders and arbitrary hips grades A for posture. -/
theorem posture_zero_shoulder_distance_grade_A_witness :
    analyze_posture
      [⟨0, 0, 0⟩, ⟨0, 0, 0⟩, ⟨0, 0, 0⟩, ⟨0, 0, 0⟩, ⟨0, 0, 0⟩,
        ⟨100, 200, 9/10⟩, ⟨100, 260, 9/10⟩, ⟨0, 0, 0⟩, ⟨0, 0, 0⟩, ⟨0, 0, 0⟩,
        ⟨0, 0, 0⟩, ⟨90, 400, 9/10⟩, ⟨110, 405, 9/10⟩] (1/2) = Grade.A :=
  posture_zero_shoulder_distance_grade_A _ _
    ⟨100, 200, 9/10⟩ ⟨100, 260, 9/10⟩ ⟨90, 400, 9/10⟩ ⟨110, 405, 9/10⟩
    (by norm_num [keypointAt]) (by norm_num [keypointAt])
    (by norm_num [keypointAt]) (by norm_num [keypointAt]) rfl

lemma analyze_eye_contact_present (kps : List Keypoint) (width : ℕ) (thr : ℚ)
    (nose le re : Keypoint) (h0 : keypointAt kps 0 thr = some nose)
    (h1 : keypointAt kps 1 thr = some le) (h2 : keypointAt kps 2 thr = some re)
    (hw : 0 < width) :
    analyze_eye_contact kps width thr =
      (if eyeOffset le re width < 1/10 ∧ eyeTilt le re < 1/10 then Grade.A
       else if eyeOffset le re width < 2/10 ∧ eyeTilt le re < 2/10 then Grade.B
       else Grade.C) := by
  unfold analyze_eye_contact
  rw [h0, h1, h2]
  dsimp only []
  rw [if_neg (Nat.pos_iff_ne_zero.mp hw)]
  rw [tilt_guard]
  unfold eyeOffset eyeTilt
  rfl

/-- Claim C3: with nose and both eyes present above the threshold and a
positive frame width, the eye-contact grade is A exactly when both the
horizontal offset and the tilt are below 0.10, B exactly when not A and
both are below 0.20, and C otherwise; all comparisons are strict, so
boundary values such as an offset of exactly 0.10 or 0.20 fall on the
worse side. -/
theorem eye_contact_grade_spec (kps : List Keypoint) (width : ℕ) (thr : ℚ)
    (nose le re : Keypoint) (h0 : keypointAt kps 0 thr = some nose)
    (h1 : keypointAt kps 1 thr = some le) (h2 : keypointAt kps 2 thr = some re)
    (hw : 0 < width) :
    (analyze_eye_contact kps width thr = Grade.A ↔
        eyeOffset le re width < 1/10 ∧ eyeTilt le re < 1/10) ∧
    (analyze_eye_contact kps width thr = Grade.B ↔
        ¬(eyeOffset le re width < 1/10 ∧ eyeTilt le re < 1/10) ∧
        (eyeOffset le re width < 2/10 ∧ eyeTilt le re < 2/10)) ∧
    (analyze_eye_contact kps width thr = Grade.C ↔
        ¬(eyeOffset le re width < 1/10 ∧ eyeTilt le re < 1/10) ∧
        ¬(eyeOffset le re width < 2/10 ∧ eyeTilt le re < 2/10)) := by
  rw [analyze_eye_contact_present kps width thr nose le re h0 h1 h2 hw]
  exact grade_if_cases _ _

/-- Witness for C3 at a concrete observation with both eyes detected. -/
theorem eye_contact_grade_spec_witness :
    (analyze_eye_contact [⟨320, 95, 9/10⟩, ⟨300, 100, 9/10⟩, ⟨340, 100, 9/10⟩]
          640 (1/2) = Grade.A ↔
        eyeOffset ⟨300, 100, 9/10⟩ ⟨340, 100, 9/10⟩ 640 < 1/10 ∧
        eyeTilt ⟨300, 100, 9/10⟩ ⟨340, 100, 9/10⟩ < 1/10) ∧
    (analyze_eye_contact [⟨320, 95, 9/10⟩, ⟨300, 100, 9/10⟩, ⟨340, 100, 9/10⟩]
          640 (1/2) = Grade.B ↔
        ¬(eyeOffset ⟨300, 100, 9/10⟩ ⟨340, 100, 9/10⟩ 640 < 1/10 ∧
            eyeTilt ⟨300, 100, 9/10⟩ ⟨340, 100, 9/10⟩ < 1/10) ∧
        (eyeOffset ⟨300, 100, 9/10⟩ ⟨340, 100, 9/10⟩ 640 < 2/10 ∧
          eyeTilt ⟨300, 100, 9/10⟩ ⟨340, 100, 9/10⟩ < 2/10)) ∧
    (analyze_eye_contact [⟨320, 95, 9/10⟩, ⟨300, 100, 9/10⟩, ⟨340, 100, 9/10⟩]
          640 (1/2) = Grade.C ↔
        ¬(eyeOffset ⟨300, 100, 9/10⟩ ⟨340, 100, 9/10⟩ 640 < 1/10 ∧
            eyeTilt ⟨300, 100, 9/10⟩ ⟨340, 100, 9/10⟩ < 1/10) ∧
        ¬(eyeOffset ⟨300, 100, 9/10⟩ ⟨340, 100, 9/10⟩ 640 < 2/10 ∧
            eyeTilt ⟨300, 100, 9/10⟩ ⟨340, 100, 9/10⟩ < 2/10)) :=
  eye_contact_grade_spec _ 640 (1/2) ⟨320, 95, 9/10⟩ ⟨300, 100, 9/10⟩ ⟨340, 100, 9/10⟩
    (by norm_num [keypointAt]) (by norm_num [keypointAt]) (by norm_num [keypointAt])
    (by norm_num)

lemma analyze_framing_present (kps : List Keypoint) (width height : ℕ) (thr : ℚ)
    (nose ls rs : Keypoint) (h0 : keypointAt kps 0 thr = some nose)
    (h5 : keypointAt kps 5 thr = some ls) (h6 : keypointAt kps 6 thr = some rs)
    (hw : 0 < width) (hh : 0 < height) :
    analyze_framing kps width height thr =
      (if shoulderOffset ls rs width < 15/100 ∧
          (1/10 < frameFrac ls rs width ∧ frameFrac ls rs width < 4/10) ∧
          (1/10 < headYFrac nose height ∧ headYFrac nose height < 4/10) then Grade.A
       else if shoulderOffset ls rs width < 25/100 ∧
          (5/100 < frameFrac ls rs width ∧ frameFrac ls rs width < 5/10) ∧
          (5/100 < headYFrac nose height ∧ headYFrac nose height < 5/10) then Grade.B
       else Grade.C) := by
  unfold analyze_framing
  rw [h0, h5, h6]
  dsimp only []
  rw [if_neg (by simp [hw.ne', hh.ne'])]
  unfold shoulderOffset frameFrac headYFrac
  rfl

/-- Claim C4: with nose and both shoulders present above the threshold and
positive frame dimensions, the framing grade is A exactly when the
shoulder-midpoint offset is below 0.15 and the frame ratio and head height
ratio lie strictly inside (0.10, 0.40), B exactly when not A and the
offset is below 0.25 with both ratios strictly inside (0.05, 0.50), and C
otherwise; all comparisons are strict. -/
theorem framing_grade_spec (kps : List Keypoint) (width height : ℕ) (thr : ℚ)
    (nose ls rs : Keypoint) (h0 : keypointAt kps 0 thr = some nose)
    (h5 : keypointAt kps 5 thr = some ls) (h6 : keypointAt kps 6 thr = some rs)
    (hw : 0 < width) (hh : 0 < height) :
    (analyze_framing kps width height thr = Grade.A ↔
        shoulderOffset ls rs width < 15/100 ∧
        (1/10 < frameFrac ls rs width ∧ frameFrac ls rs width < 4/10) ∧
        (1/10 < headYFrac nose height ∧ headYFrac nose height < 4/10)) ∧
    (analyze_framing kps width height thr = Grade.B ↔
        ¬(shoulderOffset ls rs width < 15/100 ∧
            (1/10 < frameFrac ls rs width ∧ frameFrac ls rs width < 4/10) ∧
            (1/10 < headYFrac nose height ∧ headYFrac nose height < 4/10)) ∧
        (shoulderOffset ls rs width < 25/100 ∧
          (5/100 < frameFrac ls rs width ∧ frameFrac ls rs width < 5/10) ∧
          (5/100 < headYFrac nose height ∧ headYFrac nose height < 5/10))) ∧
    (analyze_framing kps width height thr = Grade.C ↔
        ¬(shoulderOffset ls rs width < 15/100 ∧
            (1/10 < frameFrac ls rs width ∧ frameFrac ls rs width < 4/10) ∧
            (1/10 < headYFrac nose height ∧ headYFrac nose height < 4/10)) ∧
        ¬(shoulderOffset ls rs width < 25/100 ∧
            (5/100 < frameFrac ls rs width ∧ frameFrac ls rs width < 5/10) ∧
            (5/100 < headYFrac nose height ∧ headYFrac nose height < 5/10))) := by
  rw [analyze_framing_present kps width height thr nose ls rs h0 h5 h6 hw hh]
  exact grade_if_cases _ _

/-- Witness for C4 at a concrete observation with nose and shoulders
detected. -/
theorem framing_grade_spec_witness :
    (analyze_framing [⟨320, 96, 9/10⟩, ⟨0, 0, 0⟩, ⟨0, 0, 0⟩, ⟨0, 0, 0⟩, ⟨0, 0, 0⟩,
          ⟨240, 200, 9/10⟩, ⟨400, 200, 9/10⟩] 640 480 (1/2) = Grade.A ↔
        shoulderOffset ⟨240, 200, 9/10⟩ ⟨400, 200, 9/10⟩ 640 < 15/100 ∧
        (1/10 < frameFrac ⟨240, 200, 9/10⟩ ⟨400, 200, 9/10⟩ 640 ∧
          frameFrac ⟨240, 200, 9/10⟩ ⟨400, 200, 9/10⟩ 640 < 4/10) ∧
        (1/10 < headYFrac ⟨320, 96, 9/10⟩ 480 ∧
          headYFrac ⟨320, 96, 9/10⟩ 480 < 4/10)) ∧
    (analyze_framing [⟨320, 96, 9/10⟩, ⟨0, 0, 0⟩, ⟨0, 0, 0⟩, ⟨0, 0, 0⟩, ⟨0, 0, 0⟩,
          ⟨240, 200, 9/10⟩, ⟨400, 200, 9/10⟩] 640 480 (1/2) = Grade.B ↔
        ¬(shoulderOffset ⟨240, 200, 9/10⟩ ⟨400, 200, 9/10⟩ 640 < 15/100 ∧
            (1/10 < frameFrac ⟨240, 200, 9/10⟩ ⟨400, 200, 9/10⟩ 640 ∧
              frameFrac ⟨240, 200, 9/10⟩ ⟨400, 200, 9/10⟩ 640 < 4/10) ∧
            (1/10 < headYFrac ⟨320, 96, 9/10⟩ 480 ∧
              headYFrac ⟨320, 96, 9/10⟩ 480 < 4/10)) ∧
        (shoulderOffset ⟨240, 200, 9/10⟩ ⟨400, 200, 9/10⟩ 640 < 25/100 ∧
          (5/100 < frameFrac ⟨240, 200, 9/10⟩ ⟨400, 200, 9/10⟩ 640 ∧
            frameFrac ⟨240, 200, 9/10⟩ ⟨400, 200, 9/10⟩ 640 < 5/10) ∧
          (5/100 < headYFrac ⟨320, 96, 9/10⟩ 480 ∧
            headYFrac ⟨320, 96, 9/10⟩ 480 < 5/10))) ∧
    (analyze_framing [⟨320, 96, 9/10⟩, ⟨0, 0, 0⟩, ⟨0, 0, 0⟩, ⟨0, 0, 0⟩, ⟨0, 0, 0⟩,
          ⟨240, 200, 9/10⟩, ⟨400, 200, 9/10⟩] 640 480 (1/2) = Grade.C ↔
        ¬(shoulderOffset ⟨240, 200, 9/10⟩ ⟨400, 200, 9/10⟩ 640 < 15/100 ∧
            (1/10 < frameFrac ⟨240, 200, 9/10⟩ ⟨400, 200, 9/10⟩ 640 ∧
              frameFrac ⟨240, 200, 9/10⟩ ⟨400, 200, 9/10⟩ 640 < 4/10) ∧
            (1/10 < headYFrac ⟨320, 96, 9/10⟩ 480 ∧
              headYFrac ⟨320, 96, 9/10⟩ 480 < 4/10)) ∧
        ¬(shoulderOffset ⟨240, 200, 9/10⟩ ⟨400, 200, 9/10⟩ 640 < 25/100 ∧
            (5/100 < frameFrac ⟨240, 200, 9/10⟩ ⟨400, 200, 9/10⟩ 640 ∧
              frameFrac ⟨240, 200, 9/10⟩ ⟨400, 200, 9/10⟩ 640 < 5/10) ∧
            (5/100 < headYFrac ⟨320, 96, 9/10⟩ 480 ∧
              headYFrac ⟨320, 96, 9/10⟩ 480 < 5/10))) :=
  framing_grade_spec _ 640 480 (1/2) ⟨320, 96, 9/10⟩ ⟨240, 200, 9/10⟩ ⟨400, 200, 9/10⟩
    (by norm_num [keypointAt]) (by norm_num [keypointAt]) (by norm_num [keypointAt])
    (by norm_num) (by norm_num)

lemma analyze_lighting_eq (px : List ℕ) (hne : px ≠ []) :
    analyze_lighting px =
      (if (100 < brightnessQ px ∧ brightnessQ px < 180) ∧ 30 ^ 2 < varianceQ px ∧
          overexposedQ px < 1/10 ∧ underexposedQ px < 1/10 then Grade.A
       else if (80 < brightnessQ px ∧ brightnessQ px < 200) ∧ 20 ^ 2 < varianceQ px ∧
          overexposedQ px < 2/10 ∧ underexposedQ px < 2/10 then Grade.B
       else Grade.C) := by
  unfold analyze_lighting
  rw [if_neg hne]

/-- Claim C5: on a nonempty frame the lighting grade depends only on the
pixel intensities (the function takes no keypoint data): it is A exactly
when the mean brightness lies strictly between 100 and 180, the contrast
(standard deviation) exceeds 30 (encoded as variance above 30 squared),
and both exposure fractions are below 0.10; B exactly when not A and
brightness lies strictly between 80 and 200, contrast exceeds 20, and both
fractions are below 0.20; and C otherwise. -/
theorem lighting_grade_spec (px : List ℕ) (hne : px ≠ []) :
    (analyze_lighting px = Grade.A ↔
        (100 < brightnessQ px ∧ brightnessQ px < 180) ∧ 30 ^ 2 < varianceQ px ∧
        overexposedQ px < 1/10 ∧ underexposedQ px < 1/10) ∧
    (analyze_lighting px = Grade.B ↔
        ¬((100 < brightnessQ px ∧ brightnessQ px < 180) ∧ 30 ^ 2 < varianceQ px ∧
            overexposedQ px < 1/10 ∧ underexposedQ px < 1/10) ∧
        ((80 < brightnessQ px ∧ brightnessQ px < 200) ∧ 20 ^ 2 < varianceQ px ∧
          overexposedQ px < 2/10 ∧ underexposedQ px < 2/10)) ∧
    (analyze_lighting px = Grade.C ↔
        ¬((100 < brightnessQ px ∧ brightnessQ px < 180) ∧ 30 ^ 2 < varianceQ px ∧
            overexposedQ px < 1/10 ∧ underexposedQ px < 1/10) ∧
        ¬((80 < brightnessQ px ∧ brightnessQ px < 200) ∧ 20 ^ 2 < varianceQ px ∧
            overexposedQ px < 2/10 ∧ underexposedQ px < 2/10)) := by
  rw [analyze_lighting_eq px hne]
  exact grade_if_cases _ _

/-- Witness for C5 at a concrete two-pixel frame. -/
theorem lighting_grade_spec_witness :
    (analyze_lighting [120, 160] = Grade.A ↔
        (100 < brightnessQ [120, 160] ∧ brightnessQ [120, 160] < 180) ∧
        30 ^ 2 < varianceQ [120, 160] ∧
        overexposedQ [120, 160] < 1/10 ∧ underexposedQ [120, 160] < 1/10) ∧
    (analyze_lighting [120, 160] = Grade.B ↔
        ¬((100 < brightnessQ [120, 160] ∧ brightnessQ [120, 160] < 180) ∧
            30 ^ 2 < varianceQ [120, 160] ∧
            overexposedQ [120, 160] < 1/10 ∧ underexposedQ [120, 160] < 1/10) ∧
        ((80 < brightnessQ [120, 160] ∧ brightnessQ [120, 160] < 200) ∧
          20 ^ 2 < varianceQ [120, 160] ∧
          overexposedQ [120, 160] < 2/10 ∧ underexposedQ [120, 160] < 2/10)) ∧
    (analyze_lighting [120, 160] = Grade.C ↔
        ¬((100 < brightnessQ [120, 160] ∧ brightnessQ [120, 160] < 180) ∧
            30 ^ 2 < varianceQ [120, 160] ∧
            overexposedQ [120, 160] < 1/10 ∧ underexposedQ [120, 160] < 1/10) ∧
        ¬((80 < brightnessQ [120, 160] ∧ brightnessQ [120, 160] < 200) ∧
            20 ^ 2 < varianceQ [120, 160] ∧
            overexposedQ [120, 160] < 2/10 ∧ underexposedQ [120, 160] < 2/10)) :=
  lighting_grade_spec [120, 160] (by simp)

/-- Claim C6: the explanation is the concatenation, in the fixed order eye
contact, framing, posture, lighting, of exactly one canned sentence per
dimension-grade pair, joined with single spaces; the 12 sentences are
pairwise distinct (in particular B and C never share a sentence), and the
explanation is a function of the four grades alone, hence
deterministic. -/
theorem explanation_structure :
    (∀ e f p l : Grade,
        generate_explanation e f p l =
          eyeContactSentence e ++ " " ++ framingSentence f ++ " " ++
            postureSentence p ++ " " ++ lightingSentence l) ∧
    List.Nodup
      [eyeContactSentence Grade.A, eyeContactSentence Grade.B, eyeContactSentence Grade.C,
        framingSentence Grade.A, framingSentence Grade.B, framingSentence Grade.C,
        postureSentence Grade.A, postureSentence Grade.B, postureSentence Grade.C,
        lightingSentence Grade.A, lightingSentence Grade.B, lightingSentence Grade.C] := by
  constructor
  · intro e f p l
    cases e <;> cases f <;> cases p <;> cases l <;> rfl
  · decide

/-- Claim C7: when exactly one of the connected subscribers fails during a
publish, the message is still built and delivery succeeds for all the
others, the failing subscriber is removed from the live set, and the
publish completes normally (the embedding is a total function: every
per-client failure is absorbed inside the loop). -/
theorem broadcast_resilience {α : Type} [DecidableEq α] (analysis : AnalysisResult)
    (clients : Finset α) (sendFails : α → Bool) (c : α)
    (hc : c ∈ clients) (hfail : sendFails c = true)
    (hothers : ∀ x ∈ clients, x ≠ c → sendFails x = false) :
    (broadcast_analysis analysis clients sendFails).1 =
        some { mtype := "analysis", data := analysis } ∧
    (broadcast_analysis analysis clients sendFails).2.1 = clients.erase c ∧
    (broadcast_analysis analysis clients sendFails).2.1.card = clients.card - 1 ∧
    (broadcast_analysis analysis clients sendFails).2.2 = clients.erase c ∧
    c ∉ (broadcast_analysis analysis clients sendFails).2.2 := by
  have hne : clients ≠ ∅ := Finset.ne_empty_of_mem hc
  have hfilter : clients.filter (fun x => sendFails x = false) = clients.erase c := by
    ext x
    by_cases hxc : x = c
    · subst hxc
      simp [Finset.mem_filter, Finset.mem_erase, hfail]
    · simp only [Finset.mem_filter, Finset.mem_erase, ne_eq, hxc, not_false_iff, true_and]
      exact ⟨fun h => h.1, fun h => ⟨h, hothers x h hxc⟩⟩
  have hdiff : clients \ clients.filter (fun x => sendFails x = true) = clients.erase c := by
    ext x
    by_cases hxc : x = c
    · subst hxc
      simp [Finset.mem_sdiff, Finset.mem_filter, Finset.mem_erase, hfail, hc]
    · simp only [Finset.mem_sdiff, Finset.mem_filter, Finset.mem_erase, ne_eq, hxc,
        not_false_iff, true_and, not_and]
      exact ⟨fun h => h.1, fun h => ⟨h, fun hx => by simp [hothers x h hxc]⟩⟩
  unfold broadcast_analysis
  rw [if_neg hne]
  refine ⟨rfl, hfilter, ?_, hdiff, ?_⟩
  · show (clients.filter (fun x => sendFails x = false)).card = clients.card - 1
    rw [hfilter]
    exact Finset.card_erase_of_mem hc
  · show c ∉ clients \ clients.filter (fun x => sendFails x = true)
    rw [hdiff]
    exact Finset.not_mem_erase c clients

/-- Witness for C7: of three concrete subscribers exactly one (number 2)
fails; the other two receive the message and 2 leaves the live set. -/
theorem broadcast_resilience_witness :
    (broadcast_analysis initialAnalysis ({1, 2, 3} : Finset ℕ)
          (fun c => c == 2)).1 =
        some { mtype := "analysis", data := initialAnalysis } ∧
    (broadcast_analysis initialAnalysis ({1, 2, 3} : Finset ℕ)
          (fun c => c == 2)).2.1 = ({1, 2, 3} : Finset ℕ).erase 2 ∧
    (broadcast_analysis initialAnalysis ({1, 2, 3} : Finset ℕ)
          (fun c => c == 2)).2.1.card = ({1, 2, 3} : Finset ℕ).card - 1 ∧
    (broadcast_analysis initialAnalysis ({1, 2, 3} : Finset ℕ)
          (fun c => c == 2)).2.2 = ({1, 2, 3} : Finset ℕ).erase 2 ∧
    2 ∉ (broadcast_analysis initialAnalysis ({1, 2, 3} : Finset ℕ)
          (fun c => c == 2)).2.2 :=
  broadcast_resilience initialAnalysis {1, 2, 3} (fun c => c == 2) 2
    (by decide) (by decide) (by decide)

/-- Claim C8: a malformed inbound frame (base64 failure or undecodable
image) produces an AnalysisResult with all four grades C and an
explanation describing the error, and hands it to the very same
`broadcast_analysis` path as a normal result, which sends it to every
connected client whose delivery does not fail; the handler is total, so
no error is raised on the connection. -/
theorem malformed_frame_all_C_broadcast {α : Type} [DecidableEq α]
    (st : EngineState) (thr : ℚ) (clients : Finset α) (sendFails : α → Bool)
    (dec : DecodeOutcome) (msg : String)
    (hdec : dec = DecodeOutcome.badBase64 ∨ dec = DecodeOutcome.badImage msg)
    (hne : clients ≠ ∅) :
    ∃ r : AnalysisResult,
      process_frame st thr dec clients sendFails =
          (r, broadcast_analysis r clients sendFails) ∧
      r.eye_contact = Grade.C ∧ r.framing = Grade.C ∧ r.posture = Grade.C ∧
      r.lighting = Grade.C ∧
      (r.explanation = "Error processing frame - invalid image data" ∨
        r.explanation = "Error processing frame: " ++ msg) ∧
      (broadcast_analysis r clients sendFails).1 =
          some { mtype := "analysis", data := r } ∧
      (broadcast_analysis r clients sendFails).2.1 =
          clients.filter (fun x => sendFails x = false) := by
  have hbc : ∀ r : AnalysisResult,
      (broadcast_analysis r clients sendFails).1 =
          some { mtype := "analysis", data := r } ∧
      (broadcast_analysis r clients sendFails).2.1 =
          clients.filter (fun x => sendFails x = false) := by
    intro r
    unfold broadcast_analysis
    rw [if_neg hne]
    exact ⟨rfl, rfl⟩
  rcases hdec with rfl | rfl
  · exact ⟨errorAnalysisBase64, rfl, rfl, rfl, rfl, rfl, Or.inl rfl,
      (hbc errorAnalysisBase64).1, (hbc errorAnalysisBase64).2⟩
  · exact ⟨errorAnalysisImage msg, rfl, rfl, rfl, rfl, rfl, Or.inr rfl,
      (hbc (errorAnalysisImage msg)).1, (hbc (errorAnalysisImage msg)).2⟩

/-- Witness for C8 at a concrete malformed payload and one connected
client. -/
theorem malformed_frame_all_C_broadcast_witness :
    ∃ r : AnalysisResult,
      process_frame initialEngine (1/2) DecodeOutcome.badBase64
          ({1} : Finset ℕ) (fun _ => false) =
          (r, broadcast_analysis r ({1} : Finset ℕ) (fun _ => false)) ∧
      r.eye_contact = Grade.C ∧ r.framing = Grade.C ∧ r.posture = Grade.C ∧
      r.lighting = Grade.C ∧
      (r.explanation = "Error processing frame - invalid image data" ∨
        r.explanation = "Error processing frame: " ++ "bad") ∧
      (broadcast_analysis r ({1} : Finset ℕ) (fun _ => false)).1 =
          some { mtype := "analysis", data := r } ∧
      (broadcast_analysis r ({1} : Finset ℕ) (fun _ => false)).2.1 =
          ({1} : Finset ℕ).filter (fun x => (fun _ : ℕ => false) x = false) :=
  malformed_frame_all_C_broadcast initialEngine (1/2) {1} (fun _ => false)
    DecodeOutcome.badBase64 "bad" (Or.inl rfl) (by decide)

end SpeechCoach
